import Mathlib

/-!
Verification of `quote_exec_scatter.py` against its specification.

The program fetches trade rows from a data provider, renders a scatter chart
grouped by venue, computes per-venue summary statistics, uploads the chart to
an image host, posts a message to a Slack webhook, and saves the chart locally.

Shallow embedding conventions:
- Strings are `List Char`; venue names and URLs are `List Char`.
- Floating-point values (`wide_bps`, axis bounds, ticks) are modelled as `ℚ`.
- A network call that may raise is an `Except` value supplied as a parameter:
  `Except.error` models a raised exception, `Except.ok` a returned response.
- Pandas timestamps: `pd.to_datetime` is modelled with an abstract
  `parse : List Char → Int` argument; a `block_time` cell is either a raw
  string (`TimeVal.raw`) as ingested or a parsed timestamp (`TimeVal.ts`).
-/

/-- A cell of the `block_time` column: a raw string as returned by the
provider, or a timestamp after `pd.to_datetime` coercion. -/
inductive TimeVal where
  | raw (s : List Char)
  | ts (t : Int)
deriving DecidableEq

/-- One row of the tabular dataset: `venue`, `block_time`, `wide_bps`. -/
structure TradeRecord where
  venue : List Char
  block_time : TimeVal
  wide_bps : ℚ
deriving DecidableEq

/-- Errors raised by the Dune provider: the "no cached result" signal, or any
other provider error (auth failure, network failure, server error, ...). -/
inductive DuneError where
  | notFound
  | otherError
deriving DecidableEq

/-- Embeds `fetch_dune_data` (src lines 26-43): tries `get_latest_result`; the
`except Exception` clause catches every error from that call and falls back to
`run_query`, whose outcome (rows or a raised error) becomes the result. -/
def fetch_dune_data (latest fresh : Except DuneError (List TradeRecord)) :
    Except DuneError (List TradeRecord) :=
  match latest with
  | Except.ok rows => Except.ok rows
  | Except.error _ => fresh

/-- Models `pd.to_datetime` on one cell: parses a raw string, leaves a timestamp. -/
def to_datetime (parse : List Char → Int) : TimeVal → TimeVal
  | TimeVal.raw s => TimeVal.ts (parse s)
  | TimeVal.ts t => TimeVal.ts t

/-- The in-place column assignment `df['block_time'] = pd.to_datetime(...)`
applied to one record (src line 50). -/
def coerceRec (parse : List Char → Int) (r : TradeRecord) : TradeRecord :=
  { r with block_time := to_datetime parse r.block_time }

/-- Recursion core of `uniqueFirstSeen`. The `fuel` argument only makes the
recursion structural; it never runs out when started at the list's length. -/
def uniqueAux : Nat → List (List Char) → List (List Char)
  | _, [] => []
  | 0, _ :: _ => []
  | fuel + 1, v :: rest => v :: uniqueAux fuel (rest.filter (fun x => x != v))

/-- Model of `pandas.Series.unique` (src line 53): the distinct values in
order of first appearance. -/
def uniqueFirstSeen (l : List (List Char)) : List (List Char) :=
  uniqueAux l.length l

/-- Legend label abbreviation (src line 64):
`venue[:8] + "..." if len(venue) > 12 else venue`. -/
def legend_short (v : List Char) : List Char :=
  if v.length > 12 then v.take 8 ++ ('.' :: '.' :: '.' :: []) else v

/-- Python `int()` on a real value: truncation toward zero. -/
def pyInt (q : ℚ) : Int :=
  if 0 ≤ q then ⌊q⌋ else ⌈q⌉

/-- The tick list `[i/m for i in range(int(lo*m), int(hi*m) + 1)]`
(src lines 88 and 91, with `m = 10` resp. `m = 2`). -/
def tick_list (lo hi : ℚ) (m : Int) : List ℚ :=
  (List.range (pyInt (hi * m) - pyInt (lo * m) + 1).toNat).map
    (fun k : Nat => ((pyInt (lo * m) + (k : Int) : Int) : ℚ) / (m : ℚ))

/-- The padding `y_padding = max(y_range * 0.1, 0.5)` (src line 82). -/
def y_pad (y_min y_max : ℚ) : ℚ :=
  max ((y_max - y_min) * (1 / 10)) (1 / 2)

/-- Outcome of the y-axis tick configuration: an explicit `set_yticks` list, or
the default automatic placement when neither branch fires. -/
inductive TickPlan where
  | explicitTicks (ticks : List ℚ)
  | defaultTicks
deriving DecidableEq

/-- The tick branch of `create_scatter_plot` (src lines 86-92):
0.1-step ticks when the span is at most 10, 0.5-step ticks when it is at most
50, otherwise no explicit ticks. -/
def plan_ticks (y_min y_max : ℚ) : TickPlan :=
  if y_max - y_min ≤ 10 then
    TickPlan.explicitTicks
      (tick_list (y_min - y_pad y_min y_max) (y_max + y_pad y_min y_max) 10)
  else if y_max - y_min ≤ 50 then
    TickPlan.explicitTicks
      (tick_list (y_min - y_pad y_min y_max) (y_max + y_pad y_min y_max) 2)
  else TickPlan.defaultTicks

/-- Models `df['wide_bps'].min()` (0 for an empty frame, which the caller rules out). -/
def df_wide_min : List TradeRecord → ℚ
  | [] => 0
  | r :: rs => rs.foldl (fun m x => min m x.wide_bps) r.wide_bps

/-- Models `df['wide_bps'].max()` (0 for an empty frame, which the caller rules out). -/
def df_wide_max : List TradeRecord → ℚ
  | [] => 0
  | r :: rs => rs.foldl (fun m x => max m x.wide_bps) r.wide_bps

/-- The observable geometry of the rendered figure: the legend entries
(abbreviated label and point count, in plot order), the y-axis limits, and the
tick configuration. -/
structure Fig where
  legendEntries : List (List Char × Nat)
  ylim : ℚ × ℚ
  yticks : TickPlan
deriving DecidableEq

/-- Embeds `create_scatter_plot` (src lines 46-112). The function mutates its input
frame in place (`df['block_time'] = pd.to_datetime(df['block_time'])`), so the
embedding returns the figure together with the frame as left behind. -/
def create_scatter_plot (parse : List Char → Int) (df : List TradeRecord) :
    Fig × List TradeRecord :=
  let df2 := df.map (coerceRec parse)
  let venues := uniqueFirstSeen (df2.map TradeRecord.venue)
  let entries := venues.map
    (fun v => (legend_short v, (df2.filter (fun r => r.venue == v)).length))
  let y_min := df_wide_min df2
  let y_max := df_wide_max df2
  (⟨entries, (y_min - y_pad y_min y_max, y_max + y_pad y_min y_max),
    plan_ticks y_min y_max⟩, df2)

/-- Summary-text label abbreviation (src line 197):
`venue[:12] + "..." if len(venue) > 15 else venue`. -/
def summary_short (v : List Char) : List Char :=
  if v.length > 15 then v.take 12 ++ ('.' :: '.' :: '.' :: []) else v

/-- Models `.round(2)` on a statistic. (numpy rounds ties to even on binary floats;
on exact ties this model rounds half away from zero — no claim depends on tie
behaviour.) -/
def round2 (q : ℚ) : ℚ := ((⌊q * 100 + 1 / 2⌋ : Int) : ℚ) / 100

/-- One line of the per-venue summary: the abbreviated label and the rounded
`mean/min/max/count` aggregates. -/
structure VenueLine where
  label : List Char
  mean : ℚ
  vmin : ℚ
  vmax : ℚ
  count : Nat
deriving DecidableEq

/-- Sum of a list of rationals. -/
def listSum : List ℚ → ℚ
  | [] => 0
  | x :: xs => x + listSum xs

/-- Minimum of a list of rationals (0 when empty; never used empty). -/
def listMin : List ℚ → ℚ
  | [] => 0
  | x :: xs => xs.foldl min x

/-- Maximum of a list of rationals (0 when empty; never used empty). -/
def listMax : List ℚ → ℚ
  | [] => 0
  | x :: xs => xs.foldl max x

/-- The keys produced by `df.groupby('venue')` (src line 186): pandas groups
by the distinct venues and, with the default `sort=True`, iterates them in
sorted (lexicographic) order, not in order of first appearance. -/
def groupby_venues (df : List TradeRecord) : List (List Char) :=
  List.insertionSort (fun a b => a ≤ b)
    (uniqueFirstSeen (df.map TradeRecord.venue))

/-- The aggregates of one venue group
(`agg(['mean','min','max','count']).round(2)`, src line 186) together with the
abbreviated label used when printing its summary line (src lines 197-198). -/
def venue_stats (df : List TradeRecord) (v : List Char) : VenueLine :=
  let ws := (df.filter (fun r => r.venue == v)).map TradeRecord.wide_bps
  { label := summary_short v
  , mean := round2 (listSum ws / (ws.length : ℚ))
  , vmin := round2 (listMin ws)
  , vmax := round2 (listMax ws)
  , count := ws.length }

/-- The structured content of the summary text (src lines 186-198): total
transaction count, global wide_bps range, and the per-venue lines in the order
`summary_stats.iterrows()` yields them. -/
structure SummaryText where
  total : Nat
  range_lo : ℚ
  range_hi : ℚ
  lines : List VenueLine
deriving DecidableEq

/-- Builds the summary text of `send_to_slack` (src lines 185-198). -/
def summary_text (df : List TradeRecord) : SummaryText :=
  { total := df.length
  , range_lo := df_wide_min df
  , range_hi := df_wide_max df
  , lines := (groupby_venues df).map (venue_stats df) }

/-- One element of the Slack `blocks` array: a mrkdwn section block carrying
the summary text, or an image block carrying the hosted URL. -/
inductive Block where
  | mrkdwnSection (text : SummaryText)
  | image (url : List Char)
deriving DecidableEq

/-- The Slack message: top-level fallback `text` plus the `blocks` array. -/
structure Payload where
  text : List Char
  blocks : List Block
deriving DecidableEq

/-- The top-level fallback text `"Quote vs Exec Spread Report"` (src 221). -/
def fallbackText : List Char := ("Quote vs Exec Spread Report").toList

/-- Assembles the Slack payload (src lines 200-223): a section block always,
an image block appended exactly when hosting yielded a URL. -/
def mkPayload (df : List TradeRecord) (image_url : Option (List Char)) :
    Payload :=
  { text := fallbackText
  , blocks := Block.mrkdwnSection (summary_text df) ::
      (match image_url with
       | some url => (Block.image url) :: []
       | none => []) }

/-- The parsed response of the freeimage.host upload call: the HTTP status,
the `status_code` field of the JSON body (if present), and the
`image.url` field of the JSON body (if present). -/
structure HostResponse where
  status_code : Nat
  body_status_code : Option Nat
  image_url : Option (List Char)
deriving DecidableEq

/-- Embeds `upload_to_freeimage` (src lines 115-134). The `resp` argument is the
outcome of `requests.post`: `Except.error` models a raised network exception.
When both status checks pass, the code reads `data['image']['url']`; a body
without that field raises a `KeyError`, modelled as `Except.error`. Any failed
check returns `None`. -/
def upload_to_freeimage (resp : Except Unit HostResponse) :
    Except Unit (Option (List Char)) :=
  match resp with
  | Except.error e => Except.error e
  | Except.ok r =>
    if r.status_code = 200 then
      if r.body_status_code = some 200 then
        match r.image_url with
        | some url => Except.ok (some url)
        | none => Except.error ()
      else Except.ok none
    else Except.ok none

/-- Embeds `upload_image` (src lines 156-164): tries freeimage.host and returns its
URL on success; otherwise returns `None` (no further provider is attempted). -/
def upload_image (resp : Except Unit HostResponse) :
    Except Unit (Option (List Char)) :=
  match upload_to_freeimage resp with
  | Except.error e => Except.error e
  | Except.ok (some url) => Except.ok (some url)
  | Except.ok none => Except.ok none

deriving instance DecidableEq for Except

/-- The observable outcome of `send_to_slack`: how many times the chart was
written to the local file `quote_exec_scatter.png`, the payload handed to the
webhook POST (if that POST was reached), and the returned flag —
`Except.error` models an exception escaping `send_to_slack`. -/
structure SendResult where
  localSaves : Nat
  payloadPosted : Option Payload
  retVal : Except Unit Bool
deriving DecidableEq

/-- Embeds `send_to_slack` (src lines 167-236). `host` is the outcome of the hosting
HTTP call, `slack` the outcome of the webhook POST (`Except.ok s` = a response
with HTTP status `s`; `Except.error` = raised network exception). The local
`fig.savefig('quote_exec_scatter.png', ...)` at src line 233 runs only after
the upload and the POST have both returned, and the function returns
`response.status_code == 200`. -/
def send_to_slack (host : Except Unit HostResponse) (slack : Except Unit Nat)
    (df : List TradeRecord) : SendResult :=
  match upload_image host with
  | Except.error _ =>
      { localSaves := 0, payloadPosted := none, retVal := Except.error () }
  | Except.ok image_url =>
    let payload := mkPayload df image_url
    match slack with
    | Except.error _ =>
        { localSaves := 0, payloadPosted := some payload
        , retVal := Except.error () }
    | Except.ok status =>
        { localSaves := 1, payloadPosted := some payload
        , retVal := Except.ok (status == 200) }

/-- The message `main` ends with: the "No data fetched" notice, or normal
completion. -/
inductive MainMsg where
  | noData
  | completed
deriving DecidableEq

/-- The observable trace of one `main` run. -/
structure RunTrace where
  renderInvoked : Bool
  sendInvoked : Bool
  localSaves : Nat
  payloadPosted : Option Payload
  outcome : Except Unit MainMsg
deriving DecidableEq

/-- The `main` function of the script (src lines 239-262; named `main_run`
here because Lean reserves `main`): fetch, return early on an empty frame,
render (mutating the frame in place), send to Slack. Exceptions from
ingestion, rendering, hosting or delivery propagate to the caller
(`Except.error`). -/
def main_run (parse : List Char → Int)
    (latest fresh : Except DuneError (List TradeRecord))
    (host : Except Unit HostResponse) (slack : Except Unit Nat) : RunTrace :=
  match fetch_dune_data latest fresh with
  | Except.error _ =>
      { renderInvoked := false, sendInvoked := false, localSaves := 0
      , payloadPosted := none, outcome := Except.error () }
  | Except.ok df =>
    if df.isEmpty then
      { renderInvoked := false, sendInvoked := false, localSaves := 0
      , payloadPosted := none, outcome := Except.ok MainMsg.noData }
    else
      let rendered := create_scatter_plot parse df
      let s := send_to_slack host slack rendered.2
      match s.retVal with
      | Except.error _ =>
          { renderInvoked := true, sendInvoked := true
          , localSaves := s.localSaves, payloadPosted := s.payloadPosted
          , outcome := Except.error () }
      | Except.ok _ =>
          { renderInvoked := true, sendInvoked := true
          , localSaves := s.localSaves, payloadPosted := s.payloadPosted
          , outcome := Except.ok MainMsg.completed }

/-- Index of the first occurrence of `a` in a list of venue names. -/
def firstIdx (a : List Char) : List (List Char) → Nat
  | [] => 0
  | x :: t => if x = a then 0 else firstIdx a t + 1

theorem mem_uniqueAux (fuel : Nat) :
    ∀ (l : List (List Char)), l.length ≤ fuel →
      ∀ a, (a ∈ uniqueAux fuel l ↔ a ∈ l) := by
  induction fuel with
  | zero =>
    intro l hl a
    cases l with
    | nil => simp [uniqueAux]
    | cons v rest => simp only [List.length_cons] at hl; omega
  | succ n ih =>
    intro l hl a
    cases l with
    | nil => simp [uniqueAux]
    | cons v rest =>
      simp only [uniqueAux, List.mem_cons]
      have hlen : (rest.filter (fun x => x != v)).length ≤ n :=
        le_trans (List.length_filter_le _ _)
          (Nat.le_of_succ_le_succ (by simpa using hl))
      rw [ih _ hlen a, List.mem_filter]
      constructor
      · rintro (h | ⟨h1, _⟩)
        · exact Or.inl h
        · exact Or.inr h1
      · rintro (h | h)
        · exact Or.inl h
        · by_cases hv : a = v
          · exact Or.inl hv
          · exact Or.inr ⟨h, by simpa using hv⟩

theorem firstIdx_filter_lt (p : List Char → Bool) (a b : List Char) :
    ∀ (l : List (List Char)), a ∈ l.filter p → b ∈ l.filter p →
      firstIdx a (l.filter p) < firstIdx b (l.filter p) →
      firstIdx a l < firstIdx b l := by
  intro l
  induction l with
  | nil => simp
  | cons x t ih =>
    intro ha hb h
    by_cases hp : p x
    · rw [List.filter_cons_of_pos hp] at ha hb h
      by_cases hax : x = a
      · subst hax
        have hxb : ¬ x = b := by
          intro e
          subst e
          simp [firstIdx] at h
        simp [firstIdx, hxb]
      · by_cases hbx : x = b
        · simp [firstIdx, hax, hbx] at h
        · have ha' : a ∈ t.filter p := by
            rcases List.mem_cons.mp ha with h' | h'
            · exact absurd h'.symm hax
            · exact h'
          have hb' : b ∈ t.filter p := by
            rcases List.mem_cons.mp hb with h' | h'
            · exact absurd h'.symm hbx
            · exact h'
          simp only [firstIdx, if_neg hax, if_neg hbx] at h ⊢
          have := ih ha' hb' (by omega)
          omega
    · rw [List.filter_cons_of_neg hp] at ha hb h
      have hap : p a = true := (List.mem_filter.mp ha).2
      have hbp : p b = true := (List.mem_filter.mp hb).2
      have hax : ¬ x = a := fun e => hp (e ▸ hap)
      have hbx : ¬ x = b := fun e => hp (e ▸ hbp)
      simp only [firstIdx, if_neg hax, if_neg hbx]
      exact Nat.succ_lt_succ (ih ha hb h)

theorem pairwise_uniqueAux (fuel : Nat) :
    ∀ (l : List (List Char)), l.length ≤ fuel →
      (uniqueAux fuel l).Pairwise (fun a b => firstIdx a l < firstIdx b l) := by
  induction fuel with
  | zero =>
    intro l hl
    cases l with
    | nil => simp [uniqueAux]
    | cons v rest => simp only [List.length_cons] at hl; omega
  | succ n ih =>
    intro l hl
    cases l with
    | nil => simp [uniqueAux]
    | cons v rest =>
      have hlen : (rest.filter (fun x => x != v)).length ≤ n :=
        le_trans (List.length_filter_le _ _)
          (Nat.le_of_succ_le_succ (by simpa using hl))
      simp only [uniqueAux]
      refine List.Pairwise.cons ?_ ?_
      · intro b hb
        have hbf : b ∈ rest.filter (fun x => x != v) :=
          (mem_uniqueAux n _ hlen b).mp hb
        have hbv : ¬ v = b := by
          have := (List.mem_filter.mp hbf).2
          simp only [bne_iff_ne, ne_eq] at this
          exact fun e => this e.symm
        simp [firstIdx, hbv]
      · refine (ih _ hlen).imp_of_mem ?_
        intro a b ha hb hab
        have haf : a ∈ rest.filter (fun x => x != v) :=
          (mem_uniqueAux n _ hlen a).mp ha
        have hbf : b ∈ rest.filter (fun x => x != v) :=
          (mem_uniqueAux n _ hlen b).mp hb
        have hav : ¬ v = a := by
          have := (List.mem_filter.mp haf).2
          simp only [bne_iff_ne, ne_eq] at this
          exact fun e => this e.symm
        have hbv : ¬ v = b := by
          have := (List.mem_filter.mp hbf).2
          simp only [bne_iff_ne, ne_eq] at this
          exact fun e => this e.symm
        have h' := firstIdx_filter_lt _ a b rest haf hbf hab
        simp only [firstIdx, if_neg hav, if_neg hbv]
        omega

theorem mem_uniqueFirstSeen (l : List (List Char)) (a : List Char) :
    a ∈ uniqueFirstSeen l ↔ a ∈ l :=
  mem_uniqueAux l.length l le_rfl a

theorem pairwise_firstIdx_uniqueFirstSeen (l : List (List Char)) :
    (uniqueFirstSeen l).Pairwise (fun a b => firstIdx a l < firstIdx b l) :=
  pairwise_uniqueAux l.length l le_rfl

theorem foldl_min_le_init (l : List TradeRecord) :
    ∀ a : ℚ, l.foldl (fun m x => min m x.wide_bps) a ≤ a := by
  induction l with
  | nil => intro a; simp
  | cons r rs ih => intro a; exact le_trans (ih _) (min_le_left _ _)

theorem init_le_foldl_max (l : List TradeRecord) :
    ∀ a : ℚ, a ≤ l.foldl (fun m x => max m x.wide_bps) a := by
  induction l with
  | nil => intro a; simp
  | cons r rs ih => intro a; exact le_trans (le_max_left _ _) (ih _)

theorem df_wide_min_le_max (df : List TradeRecord) (h : df ≠ []) :
    df_wide_min df ≤ df_wide_max df := by
  cases df with
  | nil => exact absurd rfl h
  | cons r rs =>
    exact le_trans (foldl_min_le_init rs r.wide_bps) (init_le_foldl_max rs r.wide_bps)

theorem map_venue_coerce (parse : List Char → Int) (df : List TradeRecord) :
    (df.map (coerceRec parse)).map TradeRecord.venue = df.map TradeRecord.venue := by
  induction df with
  | nil => rfl
  | cons r rs ih => simp [coerceRec, ih]

theorem map_wide_coerce (parse : List Char → Int) (df : List TradeRecord) :
    (df.map (coerceRec parse)).map TradeRecord.wide_bps
      = df.map TradeRecord.wide_bps := by
  induction df with
  | nil => rfl
  | cons r rs ih => simp [coerceRec, ih]

theorem df_wide_min_coerce (parse : List Char → Int) (df : List TradeRecord) :
    df_wide_min (df.map (coerceRec parse)) = df_wide_min df := by
  cases df with
  | nil => rfl
  | cons r rs => simp [df_wide_min, List.foldl_map, coerceRec]

theorem df_wide_max_coerce (parse : List Char → Int) (df : List TradeRecord) :
    df_wide_max (df.map (coerceRec parse)) = df_wide_max df := by
  cases df with
  | nil => rfl
  | cons r rs => simp [df_wide_max, List.foldl_map, coerceRec]

theorem le_pyInt (i : Int) (q : ℚ) (h : (i : ℚ) ≤ q) : i ≤ pyInt q := by
  unfold pyInt
  split
  · exact Int.le_floor.mpr h
  · have h2 : (i : ℚ) ≤ ((⌈q⌉ : Int) : ℚ) := le_trans h (Int.le_ceil q)
    exact_mod_cast h2

theorem pyInt_le (i : Int) (q : ℚ) (h : q ≤ (i : ℚ)) : pyInt q ≤ i := by
  unfold pyInt
  split
  · have h2 : ((⌊q⌋ : Int) : ℚ) ≤ (i : ℚ) := le_trans (Int.floor_le q) h
    exact_mod_cast h2
  · exact Int.ceil_le.mpr h

theorem mem_tick_list (lo hi : ℚ) (m : Int) (hm : (0 : ℚ) < (m : ℚ)) (i : Int)
    (h1 : lo ≤ (i : ℚ) / (m : ℚ)) (h2 : (i : ℚ) / (m : ℚ) ≤ hi) :
    ((i : ℚ) / (m : ℚ)) ∈ tick_list lo hi m := by
  have ha : pyInt (lo * m) ≤ i := pyInt_le _ _ ((le_div_iff₀ hm).mp h1)
  have hb : i ≤ pyInt (hi * m) := le_pyInt _ _ ((div_le_iff₀ hm).mp h2)
  have hmem : (i - pyInt (lo * m)).toNat
      ∈ List.range (pyInt (hi * m) - pyInt (lo * m) + 1).toNat :=
    List.mem_range.mpr (by omega)
  have hmap := List.mem_map_of_mem
    (fun k : Nat => ((pyInt (lo * m) + (k : Int) : Int) : ℚ) / (m : ℚ)) hmem
  have hnum : (pyInt (lo * m) + (((i - pyInt (lo * m)).toNat : Nat) : Int)) = i := by
    omega
  simp only [] at hmap
  rw [hnum] at hmap
  unfold tick_list
  exact hmap

theorem tick_list_form (lo hi : ℚ) (m : Int) (t : ℚ) (ht : t ∈ tick_list lo hi m) :
    ∃ i : Int, t = (i : ℚ) / (m : ℚ) := by
  unfold tick_list at ht
  rcases List.mem_map.mp ht with ⟨k, _, hk⟩
  exact ⟨_, hk.symm⟩

theorem coerce_id_of_ts (parse : List Char → Int) (df : List TradeRecord)
    (h : ∀ r ∈ df, ∃ t, r.block_time = TimeVal.ts t) :
    df.map (coerceRec parse) = df := by
  induction df with
  | nil => rfl
  | cons r rs ih =>
    have hr := h r (by simp)
    obtain ⟨v, bt, w⟩ := r
    rcases hr with ⟨t, ht⟩
    replace ht : bt = TimeVal.ts t := ht
    subst ht
    have ihr := ih (fun x hx => h x (by simp [hx]))
    simp [coerceRec, to_datetime, ihr]

/-- C2 counterexample: a provider error that is not the "no cached result"
signal does not propagate as a fatal ingestion failure; the code catches it
and uses the fresh execution's rows instead. -/
theorem c2_counterexample :
    DuneError.otherError ≠ DuneError.notFound
    ∧ fetch_dune_data (Except.error DuneError.otherError)
        (Except.ok (⟨('V' :: []), TimeVal.raw ('t' :: []), 1⟩ :: []))
      = Except.ok (⟨('V' :: []), TimeVal.raw ('t' :: []), 1⟩ :: [])
    ∧ fetch_dune_data (Except.error DuneError.otherError)
        (Except.ok (⟨('V' :: []), TimeVal.raw ('t' :: []), 1⟩ :: []))
      ≠ Except.error DuneError.otherError := by
  refine ⟨by decide, rfl, by decide⟩

/-- C2 amended: EVERY error from the latest-result request (not only the
"no cached result" signal) triggers the fresh execution, whose outcome
becomes the ingestion outcome; a successful latest-result request is used
directly. -/
theorem c2_fallback_on_any_error (e : DuneError)
    (fresh : Except DuneError (List TradeRecord)) (rows : List TradeRecord) :
    fetch_dune_data (Except.error e) fresh = fresh
    ∧ fetch_dune_data (Except.ok rows) fresh = Except.ok rows :=
  ⟨rfl, rfl⟩

/-- C8: if ingestion yields zero rows, the run renders nothing, attempts no
delivery, reports the no-data notice and returns without an exception. -/
theorem c8_empty_result_exits_cleanly (parse : List Char → Int)
    (latest fresh : Except DuneError (List TradeRecord))
    (host : Except Unit HostResponse) (slack : Except Unit Nat)
    (h : fetch_dune_data latest fresh = Except.ok []) :
    main_run parse latest fresh host slack
      = { renderInvoked := false, sendInvoked := false, localSaves := 0
        , payloadPosted := none, outcome := Except.ok MainMsg.noData } := by
  simp [main_run, h]

theorem c8_witness :
    fetch_dune_data (Except.ok ([] : List TradeRecord)) (Except.ok []) = Except.ok []
    ∧ main_run (fun _ => 0) (Except.ok []) (Except.ok [])
        (Except.ok ⟨200, some 200, none⟩) (Except.ok 200)
      = { renderInvoked := false, sendInvoked := false, localSaves := 0
        , payloadPosted := none, outcome := Except.ok MainMsg.noData } :=
  ⟨rfl, c8_empty_result_exits_cleanly _ _ _ _ _ rfl⟩

/-- C4: whenever the hosting step completes with any outcome `u` (a URL or
no URL) and the webhook POST returns HTTP status `s`, the returned overall
success flag is exactly `s == 200`. -/
theorem c4_success_flag_iff_delivery_200 (host : Except Unit HostResponse)
    (s : Nat) (df : List TradeRecord) (u : Option (List Char))
    (h : upload_image host = Except.ok u) :
    (send_to_slack host (Except.ok s) df).retVal = Except.ok (s == 200)
    ∧ ((send_to_slack host (Except.ok s) df).retVal = Except.ok true ↔ s = 200) := by
  constructor
  · simp [send_to_slack, h]
  · simp [send_to_slack, h]

theorem c4_witness :
    upload_image (Except.ok ⟨500, none, none⟩) = Except.ok none
    ∧ ((send_to_slack (Except.ok ⟨500, none, none⟩) (Except.ok 200)
          (⟨('V' :: []), TimeVal.ts 0, 1⟩ :: [])).retVal = Except.ok ((200 : Nat) == 200)
       ∧ ((send_to_slack (Except.ok ⟨500, none, none⟩) (Except.ok 200)
            (⟨('V' :: []), TimeVal.ts 0, 1⟩ :: [])).retVal = Except.ok true ↔ (200 : Nat) = 200)) :=
  ⟨rfl, c4_success_flag_iff_delivery_200 _ _ _ _ rfl⟩

/-- C5: the payload handed to the webhook POST always contains the markdown
section block, contains an image block exactly when the hosting step produced
a URL, and carries the fixed fallback text. -/
theorem c5_payload_blocks (host : Except Unit HostResponse) (s : Nat)
    (df : List TradeRecord) (u : Option (List Char)) (p : Payload)
    (h1 : upload_image host = Except.ok u)
    (h2 : (send_to_slack host (Except.ok s) df).payloadPosted = some p) :
    (Block.mrkdwnSection (summary_text df) ∈ p.blocks)
    ∧ (∀ url, Block.image url ∈ p.blocks ↔ u = some url)
    ∧ p.text = fallbackText := by
  have hp : p = mkPayload df u := by
    simp [send_to_slack, h1] at h2
    exact h2.symm
  subst hp
  refine ⟨?_, ?_, rfl⟩
  · simp [mkPayload]
  · intro url
    cases u with
    | none => simp [mkPayload]
    | some url0 =>
      simp [mkPayload]
      exact eq_comm

theorem c5_witness :
    upload_image (Except.ok ⟨200, some 200, some ('u' :: [])⟩)
      = Except.ok (some ('u' :: []))
    ∧ (send_to_slack (Except.ok ⟨200, some 200, some ('u' :: [])⟩) (Except.ok 200)
        (⟨('V' :: []), TimeVal.ts 0, 1⟩ :: [])).payloadPosted
      = some (mkPayload (⟨('V' :: []), TimeVal.ts 0, 1⟩ :: []) (some ('u' :: [])))
    ∧ (Block.mrkdwnSection (summary_text (⟨('V' :: []), TimeVal.ts 0, 1⟩ :: []))
         ∈ (mkPayload (⟨('V' :: []), TimeVal.ts 0, 1⟩ :: []) (some ('u' :: []))).blocks
       ∧ (∀ url, Block.image url
            ∈ (mkPayload (⟨('V' :: []), TimeVal.ts 0, 1⟩ :: []) (some ('u' :: []))).blocks
          ↔ some ('u' :: []) = some url)
       ∧ (mkPayload (⟨('V' :: []), TimeVal.ts 0, 1⟩ :: []) (some ('u' :: []))).text
           = fallbackText) :=
  ⟨rfl, rfl, c5_payload_blocks (Except.ok ⟨200, some 200, some ('u' :: [])⟩) 200 _ _ _ rfl rfl⟩

/-- C1 counterexample: a raised network error in the hosting call, or in the
webhook POST, escapes `send_to_slack` and the local chart write never
happens — rendering succeeded, yet the chart is written zero times and an
exception crosses the pipeline boundary. -/
theorem c1_counterexample :
    ((send_to_slack (Except.error ()) (Except.ok 200)
        (⟨('V' :: []), TimeVal.ts 0, 1⟩ :: [])).localSaves = 0
     ∧ (send_to_slack (Except.error ()) (Except.ok 200)
         (⟨('V' :: []), TimeVal.ts 0, 1⟩ :: [])).retVal = Except.error ())
    ∧ ((send_to_slack (Except.ok ⟨200, some 200, some ('u' :: [])⟩) (Except.error ())
         (⟨('V' :: []), TimeVal.ts 0, 1⟩ :: [])).localSaves = 0
       ∧ (send_to_slack (Except.ok ⟨200, some 200, some ('u' :: [])⟩) (Except.error ())
           (⟨('V' :: []), TimeVal.ts 0, 1⟩ :: [])).retVal = Except.error ()) := by
  decide

/-- C1 amended: when the hosting HTTP call completes with any outcome and the
webhook POST returns any HTTP status, the chart is written to the local file
exactly once and `send_to_slack` returns a flag without raising; response-level
failures (no URL, non-200 delivery status) do not affect this. -/
theorem c1_local_save_when_calls_return (host : Except Unit HostResponse)
    (s : Nat) (df : List TradeRecord) (u : Option (List Char))
    (h : upload_image host = Except.ok u) :
    (send_to_slack host (Except.ok s) df).localSaves = 1
    ∧ ∃ b, (send_to_slack host (Except.ok s) df).retVal = Except.ok b := by
  refine ⟨?_, ⟨s == 200, ?_⟩⟩ <;> simp [send_to_slack, h]

theorem c1_witness :
    upload_image (Except.ok ⟨500, none, none⟩) = Except.ok none
    ∧ ((send_to_slack (Except.ok ⟨500, none, none⟩) (Except.ok 500)
          (⟨('V' :: []), TimeVal.ts 0, 1⟩ :: [])).localSaves = 1
       ∧ ∃ b, (send_to_slack (Except.ok ⟨500, none, none⟩) (Except.ok 500)
            (⟨('V' :: []), TimeVal.ts 0, 1⟩ :: [])).retVal = Except.ok b) :=
  ⟨rfl, c1_local_save_when_calls_return _ _ _ _ rfl⟩

/-- C3 counterexample: a 13-character venue name is abbreviated in the chart
legend (threshold 12, prefix 8) but printed in full in the per-venue summary
(threshold 15, prefix 12), so the two labels differ. -/
theorem c3_counterexample :
    legend_short (("ABCDEFGHIJKLM").toList) = ("ABCDEFGH...").toList
    ∧ summary_short (("ABCDEFGHIJKLM").toList) = ("ABCDEFGHIJKLM").toList
    ∧ legend_short (("ABCDEFGHIJKLM").toList) ≠ summary_short (("ABCDEFGHIJKLM").toList)
    ∧ (create_scatter_plot (fun _ => 0)
        (⟨("ABCDEFGHIJKLM").toList, TimeVal.ts 0, 1⟩ :: [])).1.legendEntries.map Prod.fst
      = (("ABCDEFGH...").toList :: [])
    ∧ (summary_text (⟨("ABCDEFGHIJKLM").toList, TimeVal.ts 0, 1⟩ :: [])).lines.map
        VenueLine.label
      = (("ABCDEFGHIJKLM").toList :: []) := by
  refine ⟨by decide, by decide, by decide, by decide, by decide⟩

/-- C3 amended: the legend label and the summary label agree exactly for venue
names of length at most 12; the legend truncates names longer than 12 to an
8-character prefix plus "...", the summary truncates names longer than 15 to a
12-character prefix plus "...", and these are the labels each site uses. -/
theorem c3_abbreviation_rules (v : List Char) (parse : List Char → Int)
    (df : List TradeRecord) :
    (legend_short v = summary_short v ↔ v.length ≤ 12)
    ∧ (create_scatter_plot parse df).1.legendEntries.map Prod.fst
        = (uniqueFirstSeen (df.map TradeRecord.venue)).map legend_short
    ∧ (summary_text df).lines.map VenueLine.label
        = (groupby_venues df).map summary_short := by
  refine ⟨?_, ?_, ?_⟩
  · constructor
    · intro hEq
      by_contra hlen
      push_neg at hlen
      have h1 : (legend_short v).length = 11 := by
        unfold legend_short
        rw [if_pos hlen]
        simp [List.length_take]
        omega
      have h2 := congrArg List.length hEq
      rw [h1] at h2
      by_cases h15 : v.length > 15
      · unfold summary_short at h2
        rw [if_pos h15] at h2
        simp [List.length_take] at h2
        omega
      · unfold summary_short at h2
        rw [if_neg h15] at h2
        omega
    · intro h
      unfold legend_short summary_short
      rw [if_neg (by omega), if_neg (by omega)]
  · simp only [create_scatter_plot]
    rw [map_venue_coerce]
    rw [List.map_map]
    rfl
  · simp only [summary_text]
    rw [List.map_map]
    rfl

theorem c3_witness :
    (legend_short (("ab").toList) = summary_short (("ab").toList)
      ↔ (("ab").toList).length ≤ 12)
    ∧ (create_scatter_plot (fun _ => 0) []).1.legendEntries.map Prod.fst
        = (uniqueFirstSeen (([] : List TradeRecord).map TradeRecord.venue)).map legend_short
    ∧ (summary_text []).lines.map VenueLine.label
        = (groupby_venues []).map summary_short :=
  c3_abbreviation_rules (("ab").toList) (fun _ => 0) []

/-- C7: the y-axis limits are `y_min - padding` and `y_max + padding` with
`padding = max((y_max - y_min) * 0.1, 0.5)`; hence the lower limit is at most
`min(wide_bps)`, the upper limit is at least `max(wide_bps)`, the padding is
at least 0.5, and the axis range never has zero height. -/
theorem c7_padding_and_range (parse : List Char → Int) (df : List TradeRecord)
    (h : df ≠ []) :
    (create_scatter_plot parse df).1.ylim
      = (df_wide_min df - y_pad (df_wide_min df) (df_wide_max df),
         df_wide_max df + y_pad (df_wide_min df) (df_wide_max df))
    ∧ (create_scatter_plot parse df).1.ylim.1 ≤ df_wide_min df
    ∧ df_wide_max df ≤ (create_scatter_plot parse df).1.ylim.2
    ∧ (create_scatter_plot parse df).1.ylim.1 < (create_scatter_plot parse df).1.ylim.2
    ∧ (1 : ℚ) / 2 ≤ y_pad (df_wide_min df) (df_wide_max df) := by
  have hpad : (1 : ℚ) / 2 ≤ y_pad (df_wide_min df) (df_wide_max df) :=
    le_max_right _ _
  have hmm : df_wide_min df ≤ df_wide_max df := df_wide_min_le_max df h
  have heq : (create_scatter_plot parse df).1.ylim
      = (df_wide_min df - y_pad (df_wide_min df) (df_wide_max df),
         df_wide_max df + y_pad (df_wide_min df) (df_wide_max df)) := by
    simp [create_scatter_plot, df_wide_min_coerce, df_wide_max_coerce]
  refine ⟨heq, ?_, ?_, ?_, hpad⟩
  · rw [heq]
    dsimp only
    linarith
  · rw [heq]
    dsimp only
    linarith
  · rw [heq]
    dsimp only
    linarith

theorem c7_witness :
    ((⟨('V' :: []), TimeVal.ts 0, 1⟩ :: []) : List TradeRecord) ≠ []
    ∧ ((create_scatter_plot (fun _ => 0) (⟨('V' :: []), TimeVal.ts 0, 1⟩ :: [])).1.ylim
        = (df_wide_min (⟨('V' :: []), TimeVal.ts 0, 1⟩ :: [])
            - y_pad (df_wide_min (⟨('V' :: []), TimeVal.ts 0, 1⟩ :: []))
                (df_wide_max (⟨('V' :: []), TimeVal.ts 0, 1⟩ :: [])),
           df_wide_max (⟨('V' :: []), TimeVal.ts 0, 1⟩ :: [])
            + y_pad (df_wide_min (⟨('V' :: []), TimeVal.ts 0, 1⟩ :: []))
                (df_wide_max (⟨('V' :: []), TimeVal.ts 0, 1⟩ :: [])))
       ∧ (create_scatter_plot (fun _ => 0) (⟨('V' :: []), TimeVal.ts 0, 1⟩ :: [])).1.ylim.1
           ≤ df_wide_min (⟨('V' :: []), TimeVal.ts 0, 1⟩ :: [])
       ∧ df_wide_max (⟨('V' :: []), TimeVal.ts 0, 1⟩ :: [])
           ≤ (create_scatter_plot (fun _ => 0) (⟨('V' :: []), TimeVal.ts 0, 1⟩ :: [])).1.ylim.2
       ∧ (create_scatter_plot (fun _ => 0) (⟨('V' :: []), TimeVal.ts 0, 1⟩ :: [])).1.ylim.1
           < (create_scatter_plot (fun _ => 0) (⟨('V' :: []), TimeVal.ts 0, 1⟩ :: [])).1.ylim.2
       ∧ (1 : ℚ) / 2 ≤ y_pad (df_wide_min (⟨('V' :: []), TimeVal.ts 0, 1⟩ :: []))
           (df_wide_max (⟨('V' :: []), TimeVal.ts 0, 1⟩ :: []))) :=
  ⟨by decide, c7_padding_and_range _ _ (by decide)⟩

/-- C10 counterexample: rendering a TradeSet whose `block_time` is still the
raw ingested string changes the tabular structure in place (the column is
overwritten with parsed timestamps), so the input is not left unchanged. -/
theorem c10_counterexample :
    (create_scatter_plot (fun _ => 0)
       (⟨('V' :: []), TimeVal.raw ('x' :: []), 1⟩ :: [])).2
      ≠ (⟨('V' :: []), TimeVal.raw ('x' :: []), 1⟩ :: []) := by
  decide

/-- C10 amended: rendering rewrites the frame to its `block_time`-coerced
image and touches nothing else — `venue` and `wide_bps` are unchanged, and a
frame whose `block_time` values are already timestamps is left unchanged. -/
theorem c10_render_coerces_block_time_only (parse : List Char → Int)
    (df : List TradeRecord) :
    (create_scatter_plot parse df).2 = df.map (coerceRec parse)
    ∧ (create_scatter_plot parse df).2.map TradeRecord.venue
        = df.map TradeRecord.venue
    ∧ (create_scatter_plot parse df).2.map TradeRecord.wide_bps
        = df.map TradeRecord.wide_bps
    ∧ ((∀ r ∈ df, ∃ t, r.block_time = TimeVal.ts t)
        → (create_scatter_plot parse df).2 = df) := by
  refine ⟨rfl, map_venue_coerce parse df, map_wide_coerce parse df, ?_⟩
  intro hts
  show df.map (coerceRec parse) = df
  exact coerce_id_of_ts parse df hts

theorem c10_witness :
    (create_scatter_plot (fun _ => 0) (⟨('V' :: []), TimeVal.ts 5, 1⟩ :: [])).2
      = (⟨('V' :: []), TimeVal.ts 5, 1⟩ :: []) :=
  (c10_render_coerces_block_time_only (fun _ => 0)
    (⟨('V' :: []), TimeVal.ts 5, 1⟩ :: [])).2.2.2
    (by
      intro r hr
      simp only [List.mem_cons, List.not_mem_nil, or_false] at hr
      subst hr
      exact ⟨5, rfl⟩)

/-- C6: granularity selection by span `R = y_max - y_min`: `R ≤ 10` gives
explicit ticks at every 0.1 increment across the padded range (every multiple
of 1/10 inside the range is a tick, and every tick is a multiple of 1/10);
`10 < R ≤ 50` likewise with 0.5 increments; `R > 50` leaves the default axis
behaviour; in particular span 7, 30 and 100. -/
theorem c6_tick_granularity (y_min y_max : ℚ) :
    (y_max - y_min ≤ 10 →
      plan_ticks y_min y_max = TickPlan.explicitTicks
        (tick_list (y_min - y_pad y_min y_max) (y_max + y_pad y_min y_max) 10)
      ∧ (∀ i : Int, y_min - y_pad y_min y_max ≤ (i : ℚ) / 10 →
          (i : ℚ) / 10 ≤ y_max + y_pad y_min y_max →
          ((i : ℚ) / 10)
            ∈ tick_list (y_min - y_pad y_min y_max) (y_max + y_pad y_min y_max) 10)
      ∧ (∀ t ∈ tick_list (y_min - y_pad y_min y_max) (y_max + y_pad y_min y_max) 10,
          ∃ i : Int, t = (i : ℚ) / 10))
    ∧ (10 < y_max - y_min → y_max - y_min ≤ 50 →
      plan_ticks y_min y_max = TickPlan.explicitTicks
        (tick_list (y_min - y_pad y_min y_max) (y_max + y_pad y_min y_max) 2)
      ∧ (∀ i : Int, y_min - y_pad y_min y_max ≤ (i : ℚ) / 2 →
          (i : ℚ) / 2 ≤ y_max + y_pad y_min y_max →
          ((i : ℚ) / 2)
            ∈ tick_list (y_min - y_pad y_min y_max) (y_max + y_pad y_min y_max) 2)
      ∧ (∀ t ∈ tick_list (y_min - y_pad y_min y_max) (y_max + y_pad y_min y_max) 2,
          ∃ i : Int, t = (i : ℚ) / 2))
    ∧ (50 < y_max - y_min → plan_ticks y_min y_max = TickPlan.defaultTicks)
    ∧ plan_ticks 0 7
        = TickPlan.explicitTicks (tick_list (0 - y_pad 0 7) (7 + y_pad 0 7) 10)
    ∧ plan_ticks 0 30
        = TickPlan.explicitTicks (tick_list (0 - y_pad 0 30) (30 + y_pad 0 30) 2)
    ∧ plan_ticks 0 100 = TickPlan.defaultTicks := by
  have h10 : ((10 : Int) : ℚ) = 10 := by norm_num
  have h2q : ((2 : Int) : ℚ) = 2 := by norm_num
  refine ⟨?_, ?_, ?_, ?_, ?_, ?_⟩
  · intro hle
    refine ⟨?_, ?_, ?_⟩
    · unfold plan_ticks
      rw [if_pos hle]
    · intro i hlo hhi
      have := mem_tick_list (y_min - y_pad y_min y_max) (y_max + y_pad y_min y_max) 10
        (by norm_num) i (by rw [h10]; exact hlo) (by rw [h10]; exact hhi)
      rw [h10] at this
      exact this
    · intro t ht
      rcases tick_list_form _ _ 10 t ht with ⟨i, hi⟩
      refine ⟨i, ?_⟩
      rw [hi, h10]
  · intro hgt hle
    refine ⟨?_, ?_, ?_⟩
    · unfold plan_ticks
      rw [if_neg (not_le.mpr hgt), if_pos hle]
    · intro i hlo hhi
      have := mem_tick_list (y_min - y_pad y_min y_max) (y_max + y_pad y_min y_max) 2
        (by norm_num) i (by rw [h2q]; exact hlo) (by rw [h2q]; exact hhi)
      rw [h2q] at this
      exact this
    · intro t ht
      rcases tick_list_form _ _ 2 t ht with ⟨i, hi⟩
      refine ⟨i, ?_⟩
      rw [hi, h2q]
  · intro hgt
    unfold plan_ticks
    rw [if_neg (by linarith), if_neg (not_le.mpr hgt)]
  · norm_num [plan_ticks]
  · norm_num [plan_ticks]
  · norm_num [plan_ticks]

theorem c6_witness :
    ((7 : ℚ) - 0 ≤ 10)
    ∧ (plan_ticks 0 7
        = TickPlan.explicitTicks (tick_list (0 - y_pad 0 7) (7 + y_pad 0 7) 10)
       ∧ (∀ i : Int, (0 : ℚ) - y_pad 0 7 ≤ (i : ℚ) / 10 →
           (i : ℚ) / 10 ≤ 7 + y_pad 0 7 →
           ((i : ℚ) / 10) ∈ tick_list (0 - y_pad 0 7) (7 + y_pad 0 7) 10)
       ∧ (∀ t ∈ tick_list (0 - y_pad 0 7) (7 + y_pad 0 7) 10,
           ∃ i : Int, t = (i : ℚ) / 10)) :=
  ⟨by norm_num, (c6_tick_granularity 0 7).1 (by norm_num)⟩

/-- C9 counterexample: with venues first seen in the order B, A, the chart
legend lists B then A (first-seen order) but the per-venue summary lines list
A then B (the groupby sorts its keys), so the two orders differ. -/
theorem c9_counterexample :
    (create_scatter_plot (fun _ => 0)
       (⟨('B' :: []), TimeVal.ts 0, 1⟩ :: ⟨('A' :: []), TimeVal.ts 0, 2⟩ :: [])).1.legendEntries.map
        Prod.fst
      = (('B' :: []) :: ('A' :: []) :: [])
    ∧ (summary_text
        (⟨('B' :: []), TimeVal.ts 0, 1⟩ :: ⟨('A' :: []), TimeVal.ts 0, 2⟩ :: [])).lines.map
        VenueLine.label
      = (('A' :: []) :: ('B' :: []) :: [])
    ∧ (summary_text
        (⟨('B' :: []), TimeVal.ts 0, 1⟩ :: ⟨('A' :: []), TimeVal.ts 0, 2⟩ :: [])).lines.map
        VenueLine.label
      ≠ (create_scatter_plot (fun _ => 0)
          (⟨('B' :: []), TimeVal.ts 0, 1⟩ :: ⟨('A' :: []), TimeVal.ts 0, 2⟩ :: [])).1.legendEntries.map
          Prod.fst := by
  refine ⟨by decide, by decide, by decide⟩

/-- C9 amended: the chart's legend/series order is the order in which each
venue first appears in the input rows, while the summary's per-venue lines
follow the groupby's sorted key order; both views range over exactly the
venues present in the input. -/
theorem c9_group_ordering (parse : List Char → Int) (df : List TradeRecord) :
    (create_scatter_plot parse df).1.legendEntries.map Prod.fst
      = (uniqueFirstSeen (df.map TradeRecord.venue)).map legend_short
    ∧ (uniqueFirstSeen (df.map TradeRecord.venue)).Pairwise
        (fun a b => firstIdx a (df.map TradeRecord.venue)
          < firstIdx b (df.map TradeRecord.venue))
    ∧ (∀ v, v ∈ uniqueFirstSeen (df.map TradeRecord.venue)
        ↔ v ∈ df.map TradeRecord.venue)
    ∧ (summary_text df).lines.map VenueLine.label
        = (groupby_venues df).map summary_short
    ∧ List.Sorted (fun a b => a ≤ b) (groupby_venues df)
    ∧ (∀ v, v ∈ groupby_venues df ↔ v ∈ df.map TradeRecord.venue) := by
  refine ⟨?_, pairwise_firstIdx_uniqueFirstSeen _,
    fun v => mem_uniqueFirstSeen _ v, ?_, ?_, ?_⟩
  · simp only [create_scatter_plot]
    rw [map_venue_coerce]
    rw [List.map_map]
    rfl
  · simp only [summary_text]
    rw [List.map_map]
    rfl
  · exact List.sorted_insertionSort _ _
  · intro v
    unfold groupby_venues
    rw [List.mem_insertionSort]
    exact mem_uniqueFirstSeen _ v
